import Mathlib

/-!
Verification of the droppable-collection state machine in
`packages/@react-spectrum/table/src/TableView.tsx`
(`useDroppableCollectionState` and its helpers), plus the column-resize
configuration check in `ResizableTableColumnHeader`.

The TypeScript code is shallowly embedded: keys are strings, the set of drag
type tags is a list queried by membership, host callbacks that are only
tested for presence become booleans, and callbacks whose return value is used
become `Option`-wrapped Lean functions.  A JavaScript value that can be
`undefined` or `null` becomes `Option`; in particular `allowedOperations[0]`
on an empty array is `List.head?`, which is `none` exactly when the array
access would be `undefined`.
-/

/-- React `Key`, embedded as a string. -/
abbrev Key := String

/-- The `DragTypes` set of type tags, embedded as a list queried with
`List.contains` (the source only calls `types.has(type)`). -/
abbrev DragTypes := List String

/-- The `dropPosition` field of an item drop target. -/
inductive DropPosition where
  | before
  | after
  | on
deriving DecidableEq, Repr

/-- `DropTarget`: either the collection root or an item with a position.
A nullable `DropTarget` is `Option DropTarget`. -/
inductive DropTarget where
  | root
  | item (key : Key) (dropPosition : DropPosition)
deriving DecidableEq, Repr

/-- `DropOperation` from `@react-types/shared`: `'copy' | 'link' | 'move' | 'cancel'`. -/
inductive DropOperation where
  | copy
  | link
  | move
  | cancel
deriving DecidableEq, Repr

/-- The `acceptedDragTypes` option: the literal `'all'` or a restricted array
of type tags. -/
inductive AcceptedDragTypes where
  | all
  | restricted (types : List String)
deriving DecidableEq, Repr

/-- The `DropOperationEvent` argument of `getDropOperation`. -/
structure DropOperationEvent where
  target : DropTarget
  types : DragTypes
  allowedOperations : List DropOperation
  isInternal : Bool
  draggingKeys : List Key
deriving Repr

/-- The slice of `DroppableCollectionStateOptions` that
`useDroppableCollectionState` destructures.  Handlers that the code only
checks for presence (`onInsert`, `onReorder`, `onRootDrop`, `onItemDrop`,
`onDrop`, `onDropEnter`, `onDropExit`) are booleans; `shouldAcceptItemDrop`
and the custom `getDropOperation` are optional functions because their
results are used. -/
structure DroppableCollectionOptions where
  acceptedDragTypes : AcceptedDragTypes
  onInsert : Bool
  onRootDrop : Bool
  onItemDrop : Bool
  onReorder : Bool
  shouldAcceptItemDrop : Option (DropTarget → DragTypes → Bool)
  getDropOperation : Option (DropTarget → DragTypes → List DropOperation → DropOperation)
  onDrop : Bool
  onDropEnter : Bool
  onDropExit : Bool

/-- The `Collection` collaborator: ordered key traversal.  Only
`getKeyBefore`/`getKeyAfter` are consumed by this code. -/
structure Collection where
  getKeyBefore : Key → Option Key
  getKeyAfter : Key → Option Key

/-- `isEqualDropTarget(a, b)` from TableView.tsx (module-level helper):
`if (!a) return !b;` then a switch on `a.type`. -/
def isEqualDropTarget : Option DropTarget → Option DropTarget → Bool
  | none, b => b.isNone
  | some DropTarget.root, b =>
      match b with
      | some DropTarget.root => true
      | _ => false
  | some (DropTarget.item k p), b =>
      match b with
      | some (DropTarget.item k2 p2) => k2 == k && p2 == p
      | _ => false

/-- `getOppositeTarget(target)`: rewrites `before key` as `after` the
preceding key and `after key` as `before` the following key, `none` when no
neighbor exists.  The source function has no branch for `dropPosition === 'on'`
and falls through returning `undefined`, embedded as `none`. -/
def getOppositeTarget (collection : Collection) (key : Key) (dropPosition : DropPosition) :
    Option DropTarget :=
  match dropPosition with
  | DropPosition.before =>
      match collection.getKeyBefore key with
      | some k => some (DropTarget.item k DropPosition.after)
      | none => none
  | DropPosition.after =>
      match collection.getKeyAfter key with
      | some k => some (DropTarget.item k DropPosition.before)
      | none => none
  | DropPosition.on => none

/-- `isDropTarget(dropTarget)` with the stored `targetRef.current` made an
explicit argument `current`: direct equality, or two item targets on opposite
sides of the same boundary (different keys, different non-`on` positions, and
one target`s opposite equals the other). -/
def isDropTarget (collection : Collection) (current dropTarget : Option DropTarget) : Bool :=
  if isEqualDropTarget dropTarget current then
    true
  else
    match dropTarget, current with
    | some (DropTarget.item dk dp), some (DropTarget.item tk tp) =>
        if dk != tk && dp != tp && dp != DropPosition.on && tp != DropPosition.on then
          isEqualDropTarget (getOppositeTarget collection dk dp)
              (some (DropTarget.item tk tp)) ||
            isEqualDropTarget (some (DropTarget.item dk dp))
              (getOppositeTarget collection tk tp)
        else
          false
    | _, _ => false

/-- The `type` field of an enter/exit notification event. -/
inductive DropEventType where
  | dropenter
  | dropexit
deriving DecidableEq, Repr

/-- The event passed to `onDropEnter`/`onDropExit`: `{type, x: 0, y: 0, target}`
(the source hard-codes placeholder zero coordinates). -/
structure DropEvent where
  type : DropEventType
  x : Nat
  y : Nat
  target : DropTarget
deriving DecidableEq, Repr

/-- `setTarget(newTarget)` with the stored target made explicit.  Returns the
new stored target together with the list of notification invocations, in
invocation order: no-op when `isDropTarget(newTarget)` holds for the current
target; otherwise `onDropExit` for a previously set target (when the handler
is provided), then `onDropEnter` for a non-null new target (when provided),
then the new target is committed. -/
def setTarget (collection : Collection) (opts : DroppableCollectionOptions)
    (current newTarget : Option DropTarget) :
    Option DropTarget × List DropEvent :=
  if isDropTarget collection current newTarget then
    (current, [])
  else
    let exitEvents : List DropEvent :=
      match current with
      | some t =>
          if opts.onDropExit then [DropEvent.mk DropEventType.dropexit 0 0 t] else []
      | none => []
    let enterEvents : List DropEvent :=
      match newTarget with
      | some t =>
          if opts.onDropEnter then [DropEvent.mk DropEventType.dropenter 0 0 t] else []
      | none => []
    (newTarget, exitEvents ++ enterEvents)

/-- The type gate of `defaultGetDropOperation`:
`acceptedDragTypes === 'all' || acceptedDragTypes.some(type => types.has(type))`. -/
def typeGatePasses (acceptedDragTypes : AcceptedDragTypes) (types : DragTypes) : Bool :=
  match acceptedDragTypes with
  | AcceptedDragTypes.all => true
  | AcceptedDragTypes.restricted ts => ts.any fun t => types.contains t

/-- `isValidInsert`: `onInsert && target.type === 'item' && !isInternal &&
(target.dropPosition === 'before' || target.dropPosition === 'after')`. -/
def isValidInsert (opts : DroppableCollectionOptions) (e : DropOperationEvent) : Bool :=
  match e.target with
  | DropTarget.item _ p =>
      opts.onInsert && !e.isInternal &&
        (p == DropPosition.before || p == DropPosition.after)
  | _ => false

/-- `isValidReorder`: `onReorder && target.type === 'item' && isInternal &&
(target.dropPosition === 'before' || target.dropPosition === 'after')`. -/
def isValidReorder (opts : DroppableCollectionOptions) (e : DropOperationEvent) : Bool :=
  match e.target with
  | DropTarget.item _ p =>
      opts.onReorder && e.isInternal &&
        (p == DropPosition.before || p == DropPosition.after)
  | _ => false

/-- `isValidRootDrop`: `onRootDrop && target.type === 'root' && !isInternal`. -/
def isValidRootDrop (opts : DroppableCollectionOptions) (e : DropOperationEvent) : Bool :=
  match e.target with
  | DropTarget.root => opts.onRootDrop && !e.isInternal
  | _ => false

/-- `isValidOnItemDrop`: `onItemDrop && target.type === 'item' &&
target.dropPosition === 'on' && !(isInternal && draggingKeys.has(target.key))
&& (!shouldAcceptItemDrop || shouldAcceptItemDrop(target, types))`. -/
def isValidOnItemDrop (opts : DroppableCollectionOptions) (e : DropOperationEvent) : Bool :=
  match e.target with
  | DropTarget.item k p =>
      opts.onItemDrop && p == DropPosition.on &&
        !(e.isInternal && e.draggingKeys.contains k) &&
        (match opts.shouldAcceptItemDrop with
          | none => true
          | some f => f (DropTarget.item k p) e.types)
  | _ => false

/-- `defaultGetDropOperation(e)`: type gate, then the four validity
predicates combined with the catch-all `onDrop`; on success either the custom
`getDropOperation` callback result or `allowedOperations[0]` (which is
`undefined`, i.e. `none`, on an empty array); otherwise `'cancel'`. -/
def defaultGetDropOperation (opts : DroppableCollectionOptions) (e : DropOperationEvent) :
    Option DropOperation :=
  if typeGatePasses opts.acceptedDragTypes e.types then
    if opts.onDrop || isValidInsert opts e || isValidReorder opts e ||
        isValidRootDrop opts e || isValidOnItemDrop opts e then
      match opts.getDropOperation with
      | some f => some (f e.target e.types e.allowedOperations)
      | none => e.allowedOperations.head?
    else
      some DropOperation.cancel
  else
    some DropOperation.cancel

/-- A column width prop value: `number | string` in TypeScript. -/
inductive ColumnWidthValue where
  | num (n : Int)
  | str (s : String)
deriving DecidableEq, Repr

/-- JavaScript truthiness of an optional width prop: `undefined`, `0` and the
empty string are falsy. -/
def widthIsTruthy : Option ColumnWidthValue → Bool
  | none => false
  | some (ColumnWidthValue.num n) => n != 0
  | some (ColumnWidthValue.str s) => s != ""

/-- The column props consulted by `ResizableTableColumnHeader`. -/
structure SpectrumColumnProps where
  width : Option ColumnWidthValue
  allowsResizing : Bool
deriving DecidableEq, Repr

/-- The message of the error thrown by `ResizableTableColumnHeader`. -/
def controlledResizeError : String :=
  "Controlled state is not yet supported with column resizing. Please use defaultWidth for uncontrolled column resizing or remove the allowsResizing prop."

/-- The configuration check at the top of `ResizableTableColumnHeader`:
`if (columnProps.width && columnProps.allowsResizing) throw new Error(...)`.
A thrown error is `Except.error`. -/
def resizableColumnHeaderCheck (columnProps : SpectrumColumnProps) : Except String Unit :=
  if widthIsTruthy columnProps.width && columnProps.allowsResizing then
    Except.error controlledResizeError
  else
    Except.ok ()

/-- C1: if the host declared a restricted `acceptedDragTypes` set and the drag
types intersect none of them, `getDropOperation` returns `cancel`, regardless
of the target, of which handlers are configured, and of any custom
operation-selection callback; and declaring `all` always passes the type
gate. -/
theorem c1_type_gate_yields_cancel (opts : DroppableCollectionOptions)
    (e : DropOperationEvent) (ts : List String)
    (hrestricted : opts.acceptedDragTypes = AcceptedDragTypes.restricted ts)
    (hdisjoint : (ts.any fun t => e.types.contains t) = false) :
    defaultGetDropOperation opts e = some DropOperation.cancel ∧
      typeGatePasses AcceptedDragTypes.all e.types = true := by
  refine ⟨?_, rfl⟩
  have hgate : typeGatePasses opts.acceptedDragTypes e.types = false := by
    simp only [hrestricted, typeGatePasses]
    exact hdisjoint
  simp [defaultGetDropOperation, hgate]

/-- C1 witness: accepted types restricted to text/plain, drag types text/html,
every handler configured (including the catch-all `onDrop`) — still `cancel`. -/
theorem c1_witness :
    defaultGetDropOperation
      (DroppableCollectionOptions.mk (AcceptedDragTypes.restricted ["text/plain"])
        true true true true none none true true true)
      (DropOperationEvent.mk (DropTarget.item "b" DropPosition.before)
        ["text/html"] [DropOperation.move] true ["a"]) = some DropOperation.cancel ∧
      typeGatePasses AcceptedDragTypes.all ["text/html"] = true :=
  c1_type_gate_yields_cancel
    (DroppableCollectionOptions.mk (AcceptedDragTypes.restricted ["text/plain"])
      true true true true none none true true true)
    (DropOperationEvent.mk (DropTarget.item "b" DropPosition.before)
      ["text/html"] [DropOperation.move] true ["a"])
    ["text/plain"] rfl (by decide)

/-- C2: when resolution reaches operation selection (the type gate passes and
the catch-all `onDrop` or one of the four validity predicates holds), a
custom `getDropOperation` callback result is returned verbatim; otherwise the
result is the head of `allowedOperations`. -/
theorem c2_operation_selection (opts : DroppableCollectionOptions) (e : DropOperationEvent)
    (hgate : typeGatePasses opts.acceptedDragTypes e.types = true)
    (hvalid : (opts.onDrop || isValidInsert opts e || isValidReorder opts e ||
        isValidRootDrop opts e || isValidOnItemDrop opts e) = true) :
    (∀ f, opts.getDropOperation = some f →
        defaultGetDropOperation opts e = some (f e.target e.types e.allowedOperations)) ∧
      (opts.getDropOperation = none →
        defaultGetDropOperation opts e = e.allowedOperations.head?) := by
  constructor
  · intro f hf
    simp [defaultGetDropOperation, hgate, hvalid, hf]
  · intro hf
    simp [defaultGetDropOperation, hgate, hvalid, hf]

/-- C2 witness: `onReorder` defined, target item b before, internal drag of
key a, allowed operations move then copy, no custom callback — returns move. -/
theorem c2_witness :
    defaultGetDropOperation
      (DroppableCollectionOptions.mk AcceptedDragTypes.all
        false false false true none none false false false)
      (DropOperationEvent.mk (DropTarget.item "b" DropPosition.before)
        ["text/plain"] [DropOperation.move, DropOperation.copy] true ["a"]) =
      some DropOperation.move :=
  ((c2_operation_selection
      (DroppableCollectionOptions.mk AcceptedDragTypes.all
        false false false true none none false false false)
      (DropOperationEvent.mk (DropTarget.item "b" DropPosition.before)
        ["text/plain"] [DropOperation.move, DropOperation.copy] true ["a"])
      rfl (by decide)).2 rfl).trans rfl

/-- C3 counterexample: an internal self-drop (target item a with position on,
dragging keys containing a) with `onItemDrop` defined does NOT return
`cancel` when the catch-all `onDrop` is also configured — the code returns
the first allowed operation instead. -/
theorem c3_counterexample :
    defaultGetDropOperation
      (DroppableCollectionOptions.mk AcceptedDragTypes.all
        false false true false none none true false false)
      (DropOperationEvent.mk (DropTarget.item "a" DropPosition.on)
        ["text/plain"] [DropOperation.move] true ["a"]) = some DropOperation.move ∧
      some DropOperation.move ≠ some DropOperation.cancel := by
  decide

/-- C3 amended: an internal self-drop (item target with position on whose key
is among the dragging keys) returns `cancel` even if `onItemDrop` is defined,
provided the catch-all `onDrop` callback is not supplied. -/
theorem c3_self_drop_cancel (opts : DroppableCollectionOptions) (e : DropOperationEvent)
    (k : Key) (htarget : e.target = DropTarget.item k DropPosition.on)
    (hinternal : e.isInternal = true)
    (hdragging : e.draggingKeys.contains k = true)
    (hnoOnDrop : opts.onDrop = false) :
    defaultGetDropOperation opts e = some DropOperation.cancel := by
  have h1 : isValidInsert opts e = false := by
    simp [isValidInsert, htarget]
  have h2 : isValidReorder opts e = false := by
    simp [isValidReorder, htarget]
  have h3 : isValidRootDrop opts e = false := by
    simp [isValidRootDrop, htarget]
  have hmem : k ∈ e.draggingKeys := by simpa using hdragging
  have h4 : isValidOnItemDrop opts e = false := by
    simp [isValidOnItemDrop, htarget, hinternal, hmem]
  cases hgate : typeGatePasses opts.acceptedDragTypes e.types <;>
    simp [defaultGetDropOperation, hgate, h1, h2, h3, h4, hnoOnDrop]

/-- C3 witness: the amended statement at the spec scenario — `onItemDrop`
defined, no `onDrop`, item a dropped on itself during an internal drag. -/
theorem c3_witness :
    defaultGetDropOperation
      (DroppableCollectionOptions.mk AcceptedDragTypes.all
        false false true false none none false false false)
      (DropOperationEvent.mk (DropTarget.item "a" DropPosition.on)
        ["text/plain"] [DropOperation.move] true ["a"]) = some DropOperation.cancel :=
  c3_self_drop_cancel
    (DroppableCollectionOptions.mk AcceptedDragTypes.all
      false false true false none none false false false)
    (DropOperationEvent.mk (DropTarget.item "a" DropPosition.on)
      ["text/plain"] [DropOperation.move] true ["a"])
    "a" rfl rfl (by decide) rfl

/-- C4 counterexample: an internal drag over the root target with `onRootDrop`
defined does NOT return `cancel` when the catch-all `onDrop` is also
configured — the code returns the first allowed operation instead. -/
theorem c4_counterexample :
    defaultGetDropOperation
      (DroppableCollectionOptions.mk AcceptedDragTypes.all
        false true false false none none true false false)
      (DropOperationEvent.mk DropTarget.root
        ["text/plain"] [DropOperation.move] true []) = some DropOperation.move ∧
      some DropOperation.move ≠ some DropOperation.cancel := by
  decide

/-- C4 amended: with a root target and an internal drag, `getDropOperation`
returns `cancel`, in particular when `onRootDrop` is defined, provided the
catch-all `onDrop` callback is not supplied. -/
theorem c4_internal_root_drop_cancel (opts : DroppableCollectionOptions)
    (e : DropOperationEvent)
    (htarget : e.target = DropTarget.root)
    (hinternal : e.isInternal = true)
    (hnoOnDrop : opts.onDrop = false) :
    defaultGetDropOperation opts e = some DropOperation.cancel := by
  have h1 : isValidInsert opts e = false := by
    simp [isValidInsert, htarget]
  have h2 : isValidReorder opts e = false := by
    simp [isValidReorder, htarget]
  have h3 : isValidRootDrop opts e = false := by
    simp [isValidRootDrop, htarget, hinternal]
  have h4 : isValidOnItemDrop opts e = false := by
    simp [isValidOnItemDrop, htarget]
  cases hgate : typeGatePasses opts.acceptedDragTypes e.types <;>
    simp [defaultGetDropOperation, hgate, h1, h2, h3, h4, hnoOnDrop]

/-- C4 witness: the amended statement at the spec scenario — root target,
internal drag, `onRootDrop` defined, no `onDrop`. -/
theorem c4_witness :
    defaultGetDropOperation
      (DroppableCollectionOptions.mk AcceptedDragTypes.all
        false true false false none none false false false)
      (DropOperationEvent.mk DropTarget.root
        ["text/plain"] [DropOperation.move, DropOperation.copy] true []) =
      some DropOperation.cancel :=
  c4_internal_root_drop_cancel
    (DroppableCollectionOptions.mk AcceptedDragTypes.all
      false true false false none none false false false)
    (DropOperationEvent.mk DropTarget.root
      ["text/plain"] [DropOperation.move, DropOperation.copy] true [])
    rfl rfl rfl

/-- C5: when `isDropTarget(newTarget)` holds for the stored current target
(the new target is logically identical to the current one, including opposite
representations of the same boundary), `setTarget(newTarget)` is a no-op: the
stored target is unchanged and no enter/exit notification is invoked. -/
theorem c5_set_target_noop (collection : Collection) (opts : DroppableCollectionOptions)
    (current newTarget : Option DropTarget)
    (h : isDropTarget collection current newTarget = true) :
    setTarget collection opts current newTarget = (current, []) := by
  simp [setTarget, h]

/-- C5 witness: in a collection where b immediately follows a, with current
target item a after and new target item b before (the same boundary from the
other side, with both notification handlers configured), `setTarget` keeps
the current target and fires zero notifications. -/
theorem c5_witness :
    setTarget
      (Collection.mk (fun k => if k == "b" then some "a" else none)
        (fun k => if k == "a" then some "b" else none))
      (DroppableCollectionOptions.mk AcceptedDragTypes.all
        false false false false none none false true true)
      (some (DropTarget.item "a" DropPosition.after))
      (some (DropTarget.item "b" DropPosition.before)) =
      (some (DropTarget.item "a" DropPosition.after), []) :=
  c5_set_target_noop
    (Collection.mk (fun k => if k == "b" then some "a" else none)
      (fun k => if k == "a" then some "b" else none))
    (DroppableCollectionOptions.mk AcceptedDragTypes.all
      false false false false none none false true true)
    (some (DropTarget.item "a" DropPosition.after))
    (some (DropTarget.item "b" DropPosition.before))
    (by decide)

/-- C6: when the new target is not logically identical to the stored one and
both notification handlers are supplied, `setTarget` fires exactly one exit
event for a previously set target, then exactly one enter event for a
non-null new target — exit before enter, even on a direct target-to-target
transition — and commits the new target. -/
theorem c6_set_target_transition (collection : Collection) (opts : DroppableCollectionOptions)
    (current newTarget : Option DropTarget)
    (h : isDropTarget collection current newTarget = false)
    (hexit : opts.onDropExit = true) (henter : opts.onDropEnter = true) :
    setTarget collection opts current newTarget =
      (newTarget,
        (match current with
          | some t => [DropEvent.mk DropEventType.dropexit 0 0 t]
          | none => []) ++
          (match newTarget with
            | some t => [DropEvent.mk DropEventType.dropenter 0 0 t]
            | none => [])) := by
  cases current <;> cases newTarget <;>
    simp_all [setTarget]

/-- C6 witness: a direct transition from item a before to item b after (not
the same boundary) fires exactly the exit event for the outgoing target
followed by the enter event for the incoming target, and commits it. -/
theorem c6_witness :
    setTarget
      (Collection.mk (fun k => if k == "b" then some "a" else none)
        (fun k => if k == "a" then some "b" else none))
      (DroppableCollectionOptions.mk AcceptedDragTypes.all
        false false false false none none false true true)
      (some (DropTarget.item "a" DropPosition.before))
      (some (DropTarget.item "b" DropPosition.after)) =
      (some (DropTarget.item "b" DropPosition.after),
        [DropEvent.mk DropEventType.dropexit 0 0 (DropTarget.item "a" DropPosition.before),
          DropEvent.mk DropEventType.dropenter 0 0 (DropTarget.item "b" DropPosition.after)]) :=
  (c6_set_target_transition
    (Collection.mk (fun k => if k == "b" then some "a" else none)
      (fun k => if k == "a" then some "b" else none))
    (DroppableCollectionOptions.mk AcceptedDragTypes.all
      false false false false none none false true true)
    (some (DropTarget.item "a" DropPosition.before))
    (some (DropTarget.item "b" DropPosition.after))
    (by decide) rfl rfl).trans rfl

/-- C7: for an item target with position before, if `getKeyBefore` yields a
neighbor J the opposite target is item J with position after, and when the
traversal is coherent (`getKeyAfter J = K`) the opposite of that opposite is
equal, per the equality contract, to the original; if no neighbor exists the
target has no opposite; symmetrically for position after. -/
theorem c7_opposite_target_symmetry (collection : Collection) (K J : Key) :
    ((collection.getKeyBefore K = some J →
        getOppositeTarget collection K DropPosition.before =
          some (DropTarget.item J DropPosition.after) ∧
          (collection.getKeyAfter J = some K →
            isEqualDropTarget (getOppositeTarget collection J DropPosition.after)
              (some (DropTarget.item K DropPosition.before)) = true)) ∧
      (collection.getKeyBefore K = none →
        getOppositeTarget collection K DropPosition.before = none)) ∧
      ((collection.getKeyAfter K = some J →
        getOppositeTarget collection K DropPosition.after =
          some (DropTarget.item J DropPosition.before) ∧
          (collection.getKeyBefore J = some K →
            isEqualDropTarget (getOppositeTarget collection J DropPosition.before)
              (some (DropTarget.item K DropPosition.after)) = true)) ∧
      (collection.getKeyAfter K = none →
        getOppositeTarget collection K DropPosition.after = none)) := by
  refine ⟨⟨fun h => ⟨by simp [getOppositeTarget, h], fun h2 => ?_⟩,
      fun h => by simp [getOppositeTarget, h]⟩,
    fun h => ⟨by simp [getOppositeTarget, h], fun h2 => ?_⟩,
    fun h => by simp [getOppositeTarget, h]⟩
  · simp [getOppositeTarget, h2, isEqualDropTarget]
  · simp [getOppositeTarget, h2, isEqualDropTarget]

/-- C7 witness: in the two-item collection a, b — the opposite of item b
before is item a after, the opposite of that opposite is equal to the
original, and item a before (first boundary) has no opposite. -/
theorem c7_witness :
    getOppositeTarget
        (Collection.mk (fun k => if k == "b" then some "a" else none)
          (fun k => if k == "a" then some "b" else none)) "b" DropPosition.before =
        some (DropTarget.item "a" DropPosition.after) ∧
      isEqualDropTarget
        (getOppositeTarget
          (Collection.mk (fun k => if k == "b" then some "a" else none)
            (fun k => if k == "a" then some "b" else none)) "a" DropPosition.after)
        (some (DropTarget.item "b" DropPosition.before)) = true ∧
      getOppositeTarget
        (Collection.mk (fun k => if k == "b" then some "a" else none)
          (fun k => if k == "a" then some "b" else none)) "a" DropPosition.before = none := by
  have h := c7_opposite_target_symmetry
    (Collection.mk (fun k => if k == "b" then some "a" else none)
      (fun k => if k == "a" then some "b" else none)) "b" "a"
  have h2 := c7_opposite_target_symmetry
    (Collection.mk (fun k => if k == "b" then some "a" else none)
      (fun k => if k == "a" then some "b" else none)) "a" "a"
  exact ⟨(h.1.1 (by decide)).1, (h.1.1 (by decide)).2 (by decide), h2.1.2 (by decide)⟩

/-- C8: `isEqualDropTarget(a, b)` is true exactly when both are absent, both
are root, or both are item targets with the same key and position; hence it
is reflexive, holds at null-null, and is false between root and any item. -/
theorem c8_equality_characterization :
    (∀ a b : Option DropTarget,
      isEqualDropTarget a b = true ↔
        ((a = none ∧ b = none) ∨
          (a = some DropTarget.root ∧ b = some DropTarget.root) ∨
          (∃ k p, a = some (DropTarget.item k p) ∧ b = some (DropTarget.item k p)))) ∧
      (∀ t : Option DropTarget, isEqualDropTarget t t = true) ∧
      isEqualDropTarget none none = true ∧
      (∀ k p, isEqualDropTarget (some DropTarget.root) (some (DropTarget.item k p)) = false) := by
  refine ⟨fun a b => ?_, fun t => ?_, by simp [isEqualDropTarget], fun k p => by
    simp [isEqualDropTarget]⟩
  · rcases a with _ | (_ | ⟨k, p⟩) <;> rcases b with _ | (_ | ⟨k2, p2⟩) <;>
      simp [isEqualDropTarget]
    aesop
  · rcases t with _ | (_ | ⟨k, p⟩) <;> simp [isEqualDropTarget]

/-- C9: a column configured with both a (truthy) controlled `width` prop and
`allowsResizing` makes `ResizableTableColumnHeader` fail fast by throwing a
user-facing configuration error. -/
theorem c9_controlled_resize_fails_fast (columnProps : SpectrumColumnProps)
    (hwidth : widthIsTruthy columnProps.width = true)
    (hresize : columnProps.allowsResizing = true) :
    resizableColumnHeaderCheck columnProps = Except.error controlledResizeError := by
  simp [resizableColumnHeaderCheck, hwidth, hresize]

/-- C9 witness: a column with width 200 and `allowsResizing` throws the
controlled-resizing configuration error. -/
theorem c9_witness :
    resizableColumnHeaderCheck
      (SpectrumColumnProps.mk (some (ColumnWidthValue.num 200)) true) =
      Except.error controlledResizeError :=
  c9_controlled_resize_fails_fast
    (SpectrumColumnProps.mk (some (ColumnWidthValue.num 200)) true) (by decide) rfl

/-- C10: when the type gate passes, resolution reaches operation selection,
no custom operation-selection callback is supplied, and `allowedOperations`
is empty, `getDropOperation` yields the absent value (`undefined`), which is
neither an operation kind nor `cancel`. -/
theorem c10_empty_allowed_operations_undefined (opts : DroppableCollectionOptions)
    (e : DropOperationEvent)
    (hgate : typeGatePasses opts.acceptedDragTypes e.types = true)
    (hvalid : (opts.onDrop || isValidInsert opts e || isValidReorder opts e ||
        isValidRootDrop opts e || isValidOnItemDrop opts e) = true)
    (hcustom : opts.getDropOperation = none)
    (hempty : e.allowedOperations = []) :
    defaultGetDropOperation opts e = none ∧
      (none : Option DropOperation) ≠ some DropOperation.cancel := by
  refine ⟨?_, by simp⟩
  simp [defaultGetDropOperation, hgate, hvalid, hcustom, hempty]

/-- C10 witness: catch-all `onDrop` configured, accept-all types, no custom
callback, empty `allowedOperations` — the result is absent, not `cancel`. -/
theorem c10_witness :
    defaultGetDropOperation
      (DroppableCollectionOptions.mk AcceptedDragTypes.all
        false false false false none none true false false)
      (DropOperationEvent.mk DropTarget.root ["text/plain"] [] false []) = none ∧
      (none : Option DropOperation) ≠ some DropOperation.cancel :=
  c10_empty_allowed_operations_undefined
    (DroppableCollectionOptions.mk AcceptedDragTypes.all
      false false false false none none true false false)
    (DropOperationEvent.mk DropTarget.root ["text/plain"] [] false [])
    rfl (by decide) rfl rfl

